import Mathlib

/-!
Verification of the OwlPath reputation / vote / notification pipeline.

The definitions below are a shallow embedding of the Django backend:
  - `Vote.toggle_vote`            (src/backend/votes/models.py)
  - `ReputationTransaction.save`  (src/backend/core/models.py)
  - `BusinessRuleValidator`       (src/backend/core/utils.py)
  - `Question.accept_answer`      (src/backend/questions/models.py)
  - notification signals/utils    (src/backend/notifications/signals.py, utils.py)
  - notification views            (src/backend/notifications/views.py)
  - WebSocket consumers           (src/backend/realtime/consumers.py,
                                   src/backend/notifications/consumers.py)

Database rows are modelled as lists (in creation order), the user table as a
reputation map `Nat → Int`, and the in-memory Python instance attributes that
the signal receivers use are threaded explicitly.
-/

namespace OwlPath

/-- Content kinds a Vote can point at (Django generic foreign key restricted
to the two models the app actually votes on). -/
inductive CType where
  | question
  | answer
deriving DecidableEq, Repr

/-- One row of the `votes` table: user id, content type, object id, value. -/
structure Vote where
  userId : Nat
  ctype : CType
  objectId : Nat
  value : Int
deriving DecidableEq, Repr

/-- One row of the `reputation_transactions` table. -/
structure RepTx where
  userId : Nat
  txType : String
  amount : Int
  balanceAfter : Int
deriving DecidableEq, Repr

/-- One row of the `notifications` table (the fields the claims mention). -/
structure Notif where
  recipientId : Nat
  senderId : Option Nat
  ntype : String
  isRead : Bool
deriving DecidableEq, Repr

/-- One row of the `questions` table (the fields the pipeline touches). -/
structure Question where
  id : Nat
  authorId : Nat
  acceptedAnswer : Option Nat
  isAnswered : Bool
deriving DecidableEq, Repr

/-- One row of the `answers` table (the fields the pipeline touches). -/
structure Answer where
  id : Nat
  questionId : Nat
  authorId : Nat
  isAccepted : Bool
deriving DecidableEq, Repr

/-- The acting user as the views see it (id plus moderator flag). -/
structure UserRec where
  id : Nat
  isModerator : Bool
deriving DecidableEq, Repr

/-- The database state shared by the pipeline: vote rows, the reputation
ledger (creation order), notification rows, question and answer rows, and
the user table reduced to its reputation column. -/
structure DB where
  votes : List Vote
  ledger : List RepTx
  notifs : List Notif
  questions : List Question
  answers : List Answer
  users : Nat → Int

/-- The target of a vote as `toggle_vote` receives it: a question or answer
entity with its id and author. -/
structure Target where
  ctype : CType
  id : Nat
  authorId : Nat
deriving DecidableEq, Repr

/-- Row key used by `Vote.objects.get(user=..., content_type=..., object_id=...)`. -/
def voteKey (w : Vote) (u : Nat) (t : Target) : Bool :=
  decide (w.userId = u ∧ w.ctype = t.ctype ∧ w.objectId = t.id)

/-- The single-row lookup at the head of `toggle_vote`. -/
def findVote (db : DB) (u : Nat) (t : Target) : Option Vote :=
  db.votes.find? (fun w => voteKey w u t)

/-- `vote.delete()`: remove the one row the lookup found (first key match). -/
def removeFirstVote : List Vote → (Vote → Bool) → List Vote
  | [], _ => []
  | w :: ws, p => if p w then ws else w :: removeFirstVote ws p

/-- `vote.save()` after `vote.value = value`: rewrite the one row the lookup
found (first key match) to carry the new value. -/
def updateFirstVote : List Vote → (Vote → Bool) → Int → List Vote
  | [], _, _ => []
  | w :: ws, p, v => if p w then { w with value := v } :: ws else w :: updateFirstVote ws p v

/-- Notification created by `notify_vote` (notifications/utils.py) when a new
Vote row is saved for a target the voter does not own. -/
def voteNotif (t : Target) (voter : Nat) (v : Int) : Notif :=
  { recipientId := t.authorId
    senderId := some voter
    ntype := (match t.ctype with
      | CType.question => if v = 1 then "question_upvoted" else "question_downvoted"
      | CType.answer => if v = 1 then "answer_upvoted" else "answer_downvoted")
    isRead := false }

/-- Embedding of `Vote.toggle_vote` (votes/models.py lines 42-70) together
with the `post_save` receiver `vote_created` (notifications/signals.py),
which fires `notify_vote` only when a row is created. Returns the new state
and the value the view receives: the vote object, or `none` on retraction. -/
def toggle_vote (db : DB) (u : Nat) (t : Target) (v : Int) : DB × Option Vote :=
  match findVote db u t with
  | some w =>
    if w.value = v then
      ({ db with votes := removeFirstVote db.votes (fun x => voteKey x u t) }, none)
    else
      ({ db with votes := updateFirstVote db.votes (fun x => voteKey x u t) v },
        some { w with value := v })
  | none =>
    let nv : Vote := { userId := u, ctype := t.ctype, objectId := t.id, value := v }
    ({ db with
        votes := db.votes ++ [nv]
        notifs := if t.authorId ≠ u then db.notifs ++ [voteNotif t u v] else db.notifs },
      some nv)

/-- Aggregate `votes.aggregate(Sum("value")) or 0` for a target. -/
def voteScore (db : DB) (t : Target) : Int :=
  (db.votes.filter (fun w => decide (w.ctype = t.ctype ∧ w.objectId = t.id))).foldl
    (fun s w => s + w.value) 0

/-- Embedding of `BusinessRuleValidator.validate_vote_eligibility`
(core/utils.py lines 127-130): rejects voting on content whose author is the
voter. The target author is optional, matching the `hasattr` guard. -/
def validate_vote_eligibility (targetAuthor : Option Nat) (userId : Nat) :
    Except String Unit :=
  if targetAuthor = some userId then
    Except.error "You cannot vote on your own content."
  else
    Except.ok ()

/-- Embedding of `ReputationTransaction.save` for a fresh row
(core/models.py lines 65-88): add the amount to the reputation stored for
the user, snapshot the result into `balance_after`, and append the row to
the ledger. Nothing else in the code base writes `user.reputation`. -/
def recordTransaction (db : DB) (uid : Nat) (ty : String) (a : Int) : DB :=
  let newRep : Int := db.users uid + a
  { db with
      users := fun x => if x = uid then newRep else db.users x
      ledger := db.ledger ++ [{ userId := uid, txType := ty, amount := a, balanceAfter := newRep }] }

/-- A pending ledger write: who, which transaction type, how much. -/
structure TxReq where
  uid : Nat
  ty : String
  amount : Int

/-- Run a sequence of ledger writes in order. -/
def applyTxs (db : DB) : List TxReq → DB
  | [] => db
  | r :: rs => applyTxs (recordTransaction db r.uid r.ty r.amount) rs

/-- The ledger rows of one user, in creation order. -/
def ledgerFor (uid : Nat) (db : DB) : List RepTx :=
  db.ledger.filter (fun t => decide (t.userId = uid))

/-- The prefix-sum audit check on a run of ledger rows: each row's
`balance_after` is the previous balance plus the row's amount. -/
def balancesOk (start : Int) : List RepTx → Bool
  | [] => true
  | t :: rest => decide (t.balanceAfter = start + t.amount) && balancesOk t.balanceAfter rest

/-- The balance after a run of ledger rows: the last `balance_after`, or the
start value when the run is empty. -/
def finalBalance (start : Int) : List RepTx → Int
  | [] => start
  | t :: rest => finalBalance t.balanceAfter rest

/-- The queryset filter `recipient=request.user, is_read=False`. -/
def unreadFor (r : Nat) (n : Notif) : Bool :=
  decide (n.recipientId = r) && !n.isRead

/-- Unread-notification count for a recipient (`UnreadNotificationsAPIView`
and `NotificationConsumer.get_unread_count`). -/
def unreadCount (db : DB) (r : Nat) : Nat :=
  (db.notifs.filter (unreadFor r)).length

/-- The row rewrite done by `.update(is_read=True)` on one row: rows in the
unread queryset get `is_read` set; all others stay as they are. -/
def markRead (r : Nat) (n : Notif) : Notif :=
  if unreadFor r n then { n with isRead := true } else n

/-- Embedding of `MarkAllReadAPIView.post` (notifications/views.py lines
68-85): the queryset update sets `is_read` on the recipient's unread rows
and returns how many rows it touched. -/
def markAllRead (db : DB) (r : Nat) : DB × Nat :=
  ({ db with notifs := db.notifs.map (markRead r) },
    (db.notifs.filter (unreadFor r)).length)

/-- Embedding of `BusinessRuleValidator.validate_answer_acceptance`
(core/utils.py lines 121-124). -/
def validate_answer_acceptance (questionAuthorId : Nat) (u : UserRec) :
    Except String Unit :=
  if questionAuthorId ≠ u.id ∧ u.isModerator = false then
    Except.error "Only question author can accept answers."
  else
    Except.ok ()

/-- Author of an answer row, looked up by id. -/
def answerAuthor (db : DB) (aid : Nat) : Option Nat :=
  (db.answers.find? (fun r => decide (r.id = aid))).map (fun r => r.authorId)

/-- Notification built by `notify_answer_accepted` (notifications/utils.py
lines 61-71): recipient is the answer author, sender the question author. -/
def acceptedNotif (recipient sender : Nat) : Notif :=
  { recipientId := recipient, senderId := some sender, ntype := "answer_accepted", isRead := false }

/-- Embedding of the two `post_save` receivers on Question
(notifications/signals.py lines 16-40), run in their registration order.
`prevAttr` models the optional `_previous_accepted_answer` attribute of the
in-memory instance: `none` when the attribute is absent.
`question_answer_accepted` runs first and notifies only when the attribute
is present and differs from the saved reference; `track_accepted_answer_changes`
runs second and re-reads the row from the database - which, being a
`post_save` receiver, sees the value that was just saved. -/
def acceptSignalNotifs (db : DB) (qSaved : Question) (prevAttr : Option (Option Nat)) :
    List Notif :=
  match qSaved.acceptedAnswer, prevAttr with
  | some aid, some prev =>
    if prev ≠ some aid then
      match answerAuthor db aid with
      | some recip => [acceptedNotif recip qSaved.authorId]
      | none => []
    else []
  | _, _ => []

def questionPostSave (db : DB) (qSaved : Question) (prevAttr : Option (Option Nat)) :
    DB × Option (Option Nat) :=
  ({ db with notifs := db.notifs ++ acceptSignalNotifs db qSaved prevAttr },
    some qSaved.acceptedAnswer)

/-- The body of `Question.accept_answer` (questions/models.py lines 328-352),
after validation has passed: clear the previously accepted answer's flag,
save the new answer as accepted (whose `Answer.save` override also clears
any other accepted answer of the same question), save the question with the
new reference and `is_answered`, run the question `post_save` receivers, and
create the `answer_accepted` reputation transaction. -/
def accept_answer_core (db : DB) (q : Question) (a : Answer) (prevAttr : Option (Option Nat)) :
    DB × Question × Option (Option Nat) :=
  let answers1 : List Answer :=
    match q.acceptedAnswer with
    | some p => db.answers.map (fun r : Answer => if r.id = p then { r with isAccepted := false } else r)
    | none => db.answers
  let answers2 : List Answer := answers1.map (fun r : Answer =>
    if r.questionId = a.questionId ∧ r.id ≠ a.id ∧ r.isAccepted = true then
      { r with isAccepted := false }
    else r)
  let answers3 : List Answer :=
    answers2.map (fun r : Answer => if r.id = a.id then { r with isAccepted := true } else r)
  let qNew : Question := { q with acceptedAnswer := some a.id, isAnswered := true }
  let db1 : DB := { db with
    answers := answers3
    questions := db.questions.map (fun r => if r.id = q.id then qNew else r) }
  let saved := questionPostSave db1 qNew prevAttr
  (recordTransaction saved.1 a.authorId "answer_accepted" 15, qNew, saved.2)

/-- Embedding of `Question.accept_answer` (questions/models.py lines
321-352): validate, then run the transactional body. -/
def accept_answer (db : DB) (q : Question) (a : Answer) (u : UserRec)
    (prevAttr : Option (Option Nat)) : Except String (DB × Question × Option (Option Nat)) :=
  match validate_answer_acceptance q.authorId u with
  | Except.error e => Except.error e
  | Except.ok _ => Except.ok (accept_answer_core db q a prevAttr)

/-- A channel-layer group message: target group and the `type` discriminator
that Channels uses to pick the consumer handler method. -/
structure ChannelMsg where
  group : String
  mtype : String
deriving DecidableEq, Repr

/-- ASCII lower-casing of a string, character by character (the effect of
Python `str.lower()` / `String.toLower` on class names). -/
def lowerName (s : String) : String :=
  String.mk (s.data.map Char.toLower)

/-- The group `RealtimeSyncMixin.trigger_realtime_update` (core/utils.py
lines 344-373) publishes to: the lower-cased model class name plus
`_updates`. -/
def realtimeUpdateGroup (className : String) : String :=
  lowerName className ++ "_updates"

/-- The channel message produced when `ReputationTransaction.save` commits a
new row: published to the class-derived group with discriminator
`realtime_update`. -/
def reputationChangedMsg : ChannelMsg :=
  { group := realtimeUpdateGroup "ReputationTransaction", mtype := "realtime_update" }

/-- A live WebSocket connection: the authenticated user and the channel
groups the connection has joined. -/
structure Conn where
  userId : Nat
  groups : List String
deriving DecidableEq, Repr

/-- Groups joined by `NotificationConsumer.connect` (realtime/consumers.py
lines 24-57): the per-user notification group and the global group. -/
def notificationConsumerConnect (uid : Nat) : Conn :=
  { userId := uid, groups := ["notifications_" ++ toString uid, "global_updates"] }

/-- The channel-layer handler methods `NotificationConsumer` defines
(realtime/consumers.py lines 202-255); a group message is handled only when
its `type` names one of them. -/
def notificationConsumerHandlers : List String :=
  ["new_notification", "reputation_update", "vote_update", "answer_update"]

/-- Delivery of one group message to one connection: the connection must be
in the message's group and the consumer must have a handler for the
message's `type`; the result is the outbound message type written to the
socket, or `none` when nothing is delivered. -/
def deliverToConn (c : Conn) (m : ChannelMsg) : Option String :=
  if c.groups.contains m.group && notificationConsumerHandlers.contains m.mtype then
    some m.mtype
  else
    none

/-- One outbound WebSocket message shape: producing consumer, `type`
discriminator, and the JSON field names it carries. -/
structure OutMsg where
  consumer : String
  mtype : String
  fields : List String
deriving DecidableEq, Repr

/-- Every outbound message produced by the consumers, with the exact field
lists of the `json.dumps` payloads in realtime/consumers.py and
notifications/consumers.py. -/
def allOutboundMessages : List OutMsg :=
  [ { consumer := "realtime.NotificationConsumer", mtype := "connection_established",
      fields := ["type", "message", "timestamp"] },
    { consumer := "realtime.NotificationConsumer", mtype := "notification_marked_read",
      fields := ["type", "notification_id", "timestamp"] },
    { consumer := "realtime.NotificationConsumer", mtype := "question_subscribed",
      fields := ["type", "question_id", "message", "timestamp"] },
    { consumer := "realtime.NotificationConsumer", mtype := "heartbeat_response",
      fields := ["type", "timestamp"] },
    { consumer := "realtime.NotificationConsumer", mtype := "error",
      fields := ["type", "message", "timestamp"] },
    { consumer := "realtime.NotificationConsumer", mtype := "pending_notifications",
      fields := ["type", "notifications", "count", "timestamp"] },
    { consumer := "realtime.NotificationConsumer", mtype := "new_notification",
      fields := ["type", "notification", "timestamp"] },
    { consumer := "realtime.NotificationConsumer", mtype := "reputation_update",
      fields := ["type", "new_reputation", "change", "reason", "timestamp"] },
    { consumer := "realtime.NotificationConsumer", mtype := "vote_update",
      fields := ["type", "content_type", "object_id", "vote_score", "user_vote", "timestamp"] },
    { consumer := "realtime.NotificationConsumer", mtype := "new_answer",
      fields := ["type", "question_id", "answer", "timestamp"] },
    { consumer := "realtime.QuestionConsumer", mtype := "question_data",
      fields := ["type", "question", "timestamp"] },
    { consumer := "realtime.QuestionConsumer", mtype := "vote_update",
      fields := ["type", "vote_score", "upvotes", "downvotes", "timestamp"] },
    { consumer := "realtime.QuestionConsumer", mtype := "new_answer",
      fields := ["type", "answer", "answer_count", "timestamp"] },
    { consumer := "realtime.QuestionConsumer", mtype := "answer_accepted",
      fields := ["type", "answer_id", "question_answered", "timestamp"] },
    { consumer := "realtime.QuestionConsumer", mtype := "view_update",
      fields := ["type", "views", "unique_views", "timestamp"] },
    { consumer := "realtime.LiveFeedConsumer", mtype := "recent_activities",
      fields := ["type", "activities", "timestamp"] },
    { consumer := "realtime.LiveFeedConsumer", mtype := "new_activity",
      fields := ["type", "activity", "timestamp"] },
    { consumer := "realtime.LiveFeedConsumer", mtype := "trending_update",
      fields := ["type", "content", "timestamp"] },
    { consumer := "realtime.AdminMonitoringConsumer", mtype := "system_status",
      fields := ["type", "status"] },
    { consumer := "realtime.AdminMonitoringConsumer", mtype := "system_alert",
      fields := ["type", "alert", "severity", "timestamp"] },
    { consumer := "realtime.AdminMonitoringConsumer", mtype := "performance_warning",
      fields := ["type", "metric", "value", "threshold", "timestamp"] },
    { consumer := "notifications.NotificationConsumer", mtype := "unread_count",
      fields := ["type", "count"] },
    { consumer := "notifications.NotificationConsumer", mtype := "notification",
      fields := ["type", "notification"] } ]

/-- Whether an outbound message carries the `timestamp` field. -/
def msgHasTimestamp (m : OutMsg) : Bool :=
  m.fields.contains "timestamp"

/-! Helper lemmas about the vote-row list operations. -/

theorem voteKey_mk_self (u : Nat) (t : Target) (v : Int) :
    voteKey { userId := u, ctype := t.ctype, objectId := t.id, value := v } u t = true := by
  simp [voteKey]

theorem voteKey_set_value (w : Vote) (u : Nat) (t : Target) (v : Int) :
    voteKey { w with value := v } u t = voteKey w u t := rfl

theorem removeFirstVote_all_neg {l : List Vote} {p : Vote → Bool}
    (h : ∀ x ∈ l, p x = false) : removeFirstVote l p = l := by
  induction l with
  | nil => rfl
  | cons w ws ih =>
    have hw := h w (by simp)
    have hws := ih (fun x hx => h x (List.mem_cons_of_mem _ hx))
    simp [removeFirstVote, hw, hws]

theorem removeFirstVote_append_single {l : List Vote} {p : Vote → Bool} {y : Vote}
    (h : ∀ x ∈ l, p x = false) (hy : p y = true) :
    removeFirstVote (l ++ [y]) p = l := by
  induction l with
  | nil => simp [removeFirstVote, hy]
  | cons w ws ih =>
    have hw := h w (by simp)
    have hws := ih (fun x hx => h x (List.mem_cons_of_mem _ hx))
    simp [removeFirstVote, hw, hws, List.append_eq]

theorem updateFirstVote_append_single {l : List Vote} {p : Vote → Bool} {y : Vote} {v : Int}
    (h : ∀ x ∈ l, p x = false) (hy : p y = true) :
    updateFirstVote (l ++ [y]) p v = l ++ [{ y with value := v }] := by
  induction l with
  | nil => simp [updateFirstVote, hy]
  | cons w ws ih =>
    have hw := h w (by simp)
    have hws := ih (fun x hx => h x (List.mem_cons_of_mem _ hx))
    simp [updateFirstVote, hw, hws, List.append_eq]

theorem filter_not_removeFirstVote (l : List Vote) (p : Vote → Bool) :
    (removeFirstVote l p).filter (fun x => !(p x)) = l.filter (fun x => !(p x)) := by
  induction l with
  | nil => rfl
  | cons w ws ih =>
    cases hw : p w with
    | true => simp [removeFirstVote, hw]
    | false => simp [removeFirstVote, hw, ih]

theorem filter_not_updateFirstVote {v : Int} (l : List Vote) (p : Vote → Bool)
    (hkey : ∀ x : Vote, p { x with value := v } = p x) :
    (updateFirstVote l p v).filter (fun x => !(p x)) = l.filter (fun x => !(p x)) := by
  induction l with
  | nil => rfl
  | cons w ws ih =>
    cases hw : p w with
    | true => simp [updateFirstVote, hw, hkey w]
    | false => simp [updateFirstVote, hw, ih]

theorem toggle_vote_create (db : DB) (u : Nat) (t : Target) (v : Int)
    (h : findVote db u t = none) :
    toggle_vote db u t v =
      ({ db with
          votes := db.votes ++ [{ userId := u, ctype := t.ctype, objectId := t.id, value := v }]
          notifs := if t.authorId ≠ u then db.notifs ++ [voteNotif t u v] else db.notifs },
        some { userId := u, ctype := t.ctype, objectId := t.id, value := v }) := by
  simp only [toggle_vote, h]

theorem findVote_all_neg {db : DB} {u : Nat} {t : Target}
    (h : findVote db u t = none) : ∀ x ∈ db.votes, voteKey x u t = false := by
  intro x hx
  have := (List.find?_eq_none.mp h) x hx
  simpa using this

theorem toggle_vote_delete (db : DB) (u : Nat) (t : Target) (v : Int) (w : Vote)
    (hf : findVote db u t = some w) (hv : w.value = v) :
    toggle_vote db u t v =
      ({ db with votes := removeFirstVote db.votes (fun x => voteKey x u t) }, none) := by
  simp only [toggle_vote, hf, if_pos hv]

theorem toggle_vote_update (db : DB) (u : Nat) (t : Target) (v : Int) (w : Vote)
    (hf : findVote db u t = some w) (hv : ¬ (w.value = v)) :
    toggle_vote db u t v =
      ({ db with votes := updateFirstVote db.votes (fun x => voteKey x u t) v },
        some { w with value := v }) := by
  simp only [toggle_vote, hf, if_neg hv]

/-- Net change, between two ledger states, of the summed transaction amounts
credited to one user. -/
def sumAmounts (uid : Nat) (l : List RepTx) : Int :=
  (l.filter (fun tx => decide (tx.userId = uid))).foldl (fun s tx => s + tx.amount) 0

/-- Ledger delta for a user between a before and an after state. -/
def userLedgerDelta (uid : Nat) (before after : List RepTx) : Int :=
  sumAmounts uid after - sumAmounts uid before

/-! Concrete fixtures used by witnesses and counterexamples. -/

/-- A question target: question 5, authored by user 1. -/
def exTargetQ : Target := { ctype := CType.question, id := 5, authorId := 1 }

/-- An empty database whose every user has reputation 0. -/
def exEmptyDb : DB :=
  { votes := [], ledger := [], notifs := [], questions := [], answers := [], users := fun _ => 0 }

/-- C2: evaluating the vote path at the failing input. The self-vote check
exists in `BusinessRuleValidator.validate_vote_eligibility` and would reject
user 1 voting on user 1's own content, but `Vote.toggle_vote` never invokes
it: user 1 voting +1 on their own question 5 succeeds, returns the vote, and
creates a Vote row, with no ledger write. -/
theorem c2_self_vote_succeeds :
    validate_vote_eligibility (some 1) 1 =
      Except.error "You cannot vote on your own content." ∧
    (toggle_vote exEmptyDb 1 exTargetQ 1).2 =
      some { userId := 1, ctype := CType.question, objectId := 5, value := 1 } ∧
    (toggle_vote exEmptyDb 1 exTargetQ 1).1.votes =
      [{ userId := 1, ctype := CType.question, objectId := 5, value := 1 }] ∧
    (toggle_vote exEmptyDb 1 exTargetQ 1).1.ledger = [] := by
  refine ⟨rfl, ?_, ?_, ?_⟩ <;> rfl

/-- C3: toggling the same value twice from a no-vote state returns `none` on
the second call, leaves no Vote row for the (user, target) pair, and
restores the target's vote score to its pre-vote value. -/
theorem c3_double_toggle_retracts (db : DB) (u : Nat) (t : Target) (v : Int)
    (_hv : v = 1 ∨ v = -1) (h : findVote db u t = none) :
    (toggle_vote (toggle_vote db u t v).1 u t v).2 = none ∧
    findVote (toggle_vote (toggle_vote db u t v).1 u t v).1 u t = none ∧
    voteScore (toggle_vote (toggle_vote db u t v).1 u t v).1 t = voteScore db t := by
  have hall := findVote_all_neg h
  rw [toggle_vote_create db u t v h]
  have hf1 : findVote
      ({ db with
          votes := db.votes ++ [{ userId := u, ctype := t.ctype, objectId := t.id, value := v }]
          notifs := if t.authorId ≠ u then db.notifs ++ [voteNotif t u v] else db.notifs }) u t =
      some { userId := u, ctype := t.ctype, objectId := t.id, value := v } := by
    unfold findVote at h ⊢
    simp [List.find?_append, h, voteKey_mk_self]
  have hrem : removeFirstVote
      (db.votes ++ [{ userId := u, ctype := t.ctype, objectId := t.id, value := v }])
      (fun x => voteKey x u t) = db.votes :=
    removeFirstVote_append_single hall (voteKey_mk_self u t v)
  rw [toggle_vote_delete _ u t v _ hf1 rfl]
  refine ⟨rfl, ?_, ?_⟩
  · unfold findVote
    simp only [hrem]
    exact h
  · unfold voteScore
    simp only [hrem]

/-- C3 witness: the double-toggle theorem applied at user 2, question 5,
value +1, on the empty database. -/
theorem c3_double_toggle_retracts_witness :
    ((1 : Int) = 1 ∨ (1 : Int) = -1) ∧ findVote exEmptyDb 2 exTargetQ = none ∧
    ((toggle_vote (toggle_vote exEmptyDb 2 exTargetQ 1).1 2 exTargetQ 1).2 = none ∧
      findVote (toggle_vote (toggle_vote exEmptyDb 2 exTargetQ 1).1 2 exTargetQ 1).1 2 exTargetQ =
        none ∧
      voteScore (toggle_vote (toggle_vote exEmptyDb 2 exTargetQ 1).1 2 exTargetQ 1).1 exTargetQ =
        voteScore exEmptyDb exTargetQ) :=
  ⟨Or.inl rfl, rfl, c3_double_toggle_retracts exEmptyDb 2 exTargetQ 1 (Or.inl rfl) rfl⟩

/-- The database state after user 2 casts +1 and then -1 on question 5,
starting from the empty database. -/
def c4FlipDb : DB := (toggle_vote (toggle_vote exEmptyDb 2 exTargetQ 1).1 2 exTargetQ (-1)).1

/-- C4 counterexample: after the up-then-down flip the ledger is untouched -
no ReputationTransaction was created by either call - so the ledger does not
reflect the claimed net author delta (for a question: removing the +5 upvote
credit plus the -2 downvote penalty, i.e. -7). -/
theorem c4_flip_ledger_counterexample :
    c4FlipDb.ledger = exEmptyDb.ledger ∧
    ¬ (userLedgerDelta 1 exEmptyDb.ledger c4FlipDb.ledger = -7) := by
  exact ⟨rfl, by decide⟩

/-- C4 amended: flipping a vote from +1 to -1 leaves exactly one Vote row
for the pair, valued -1, updated in place and returned by the second call;
but the vote path never writes the Ledger, so no reputation transaction
records the flip. -/
theorem c4_flip_amended (db : DB) (u : Nat) (t : Target) (h : findVote db u t = none) :
    (toggle_vote (toggle_vote db u t 1).1 u t (-1)).1.votes.filter (fun x => voteKey x u t) =
      [{ userId := u, ctype := t.ctype, objectId := t.id, value := -1 }] ∧
    (toggle_vote (toggle_vote db u t 1).1 u t (-1)).2 =
      some { userId := u, ctype := t.ctype, objectId := t.id, value := -1 } ∧
    (toggle_vote (toggle_vote db u t 1).1 u t (-1)).1.ledger = db.ledger := by
  have hall := findVote_all_neg h
  rw [toggle_vote_create db u t 1 h]
  have hf1 : findVote
      ({ db with
          votes := db.votes ++ [{ userId := u, ctype := t.ctype, objectId := t.id, value := 1 }]
          notifs := if t.authorId ≠ u then db.notifs ++ [voteNotif t u 1] else db.notifs }) u t =
      some { userId := u, ctype := t.ctype, objectId := t.id, value := 1 } := by
    unfold findVote at h ⊢
    simp [List.find?_append, h, voteKey_mk_self]
  have hupd : updateFirstVote
      (db.votes ++ [{ userId := u, ctype := t.ctype, objectId := t.id, value := 1 }])
      (fun x => voteKey x u t) (-1) =
      db.votes ++ [{ userId := u, ctype := t.ctype, objectId := t.id, value := -1 }] :=
    updateFirstVote_append_single hall (voteKey_mk_self u t 1)
  rw [toggle_vote_update _ u t (-1) _ hf1 (by simp)]
  refine ⟨?_, rfl, rfl⟩
  rw [hupd, List.filter_append]
  have hnil : db.votes.filter (fun x => voteKey x u t) = [] :=
    List.filter_eq_nil_iff.mpr (fun x hx => by simp [hall x hx])
  simp [hnil, voteKey_mk_self]

/-- C4 witness: the amended flip theorem applied at user 2, question 5, on
the empty database. -/
theorem c4_flip_amended_witness :
    findVote exEmptyDb 2 exTargetQ = none ∧
    ((toggle_vote (toggle_vote exEmptyDb 2 exTargetQ 1).1 2 exTargetQ (-1)).1.votes.filter
        (fun x => voteKey x 2 exTargetQ) =
      [{ userId := 2, ctype := CType.question, objectId := 5, value := -1 }] ∧
    (toggle_vote (toggle_vote exEmptyDb 2 exTargetQ 1).1 2 exTargetQ (-1)).2 =
      some { userId := 2, ctype := CType.question, objectId := 5, value := -1 } ∧
    (toggle_vote (toggle_vote exEmptyDb 2 exTargetQ 1).1 2 exTargetQ (-1)).1.ledger =
      exEmptyDb.ledger) :=
  ⟨rfl, c4_flip_amended exEmptyDb 2 exTargetQ rfl⟩

/-- C10: `toggle_vote` is frame-preserving - every Vote row with a different
(user, content type, object id) key survives unchanged and in order, and the
question and answer tables (the target entities) are not written at all. -/
theorem c10_toggle_vote_frame (db : DB) (u : Nat) (t : Target) (v : Int) :
    (toggle_vote db u t v).1.votes.filter (fun x => !(voteKey x u t)) =
      db.votes.filter (fun x => !(voteKey x u t)) ∧
    (toggle_vote db u t v).1.questions = db.questions ∧
    (toggle_vote db u t v).1.answers = db.answers := by
  cases hf : findVote db u t with
  | some w =>
    by_cases hv2 : w.value = v
    · rw [toggle_vote_delete db u t v w hf hv2]
      exact ⟨filter_not_removeFirstVote _ _, rfl, rfl⟩
    · rw [toggle_vote_update db u t v w hf hv2]
      exact ⟨filter_not_updateFirstVote db.votes _ (fun x => voteKey_set_value x u t v), rfl, rfl⟩
  | none =>
    rw [toggle_vote_create db u t v hf]
    refine ⟨?_, rfl, rfl⟩
    simp [List.filter_append, voteKey_mk_self]

/-! Ledger lemmas for the prefix-sum invariant (claim C1). -/

theorem balancesOk_append (s : Int) (l : List RepTx) (t : RepTx) :
    balancesOk s (l ++ [t]) =
      (balancesOk s l && decide (t.balanceAfter = finalBalance s l + t.amount)) := by
  induction l generalizing s with
  | nil => simp [balancesOk, finalBalance]
  | cons x xs ih => simp [balancesOk, finalBalance, ih, Bool.and_assoc]

theorem finalBalance_append (s : Int) (l : List RepTx) (t : RepTx) :
    finalBalance s (l ++ [t]) = t.balanceAfter := by
  induction l generalizing s with
  | nil => rfl
  | cons x xs ih => simp [finalBalance, ih]

theorem ledgerFor_record (uid u : Nat) (db : DB) (ty : String) (a : Int) :
    ledgerFor uid (recordTransaction db u ty a) =
      if u = uid then
        ledgerFor uid db ++
          [{ userId := u, txType := ty, amount := a, balanceAfter := db.users u + a }]
      else ledgerFor uid db := by
  unfold ledgerFor recordTransaction
  by_cases h : u = uid <;> simp [List.filter_append, h]

theorem users_record (uid u : Nat) (db : DB) (ty : String) (a : Int) :
    (recordTransaction db u ty a).users uid =
      if uid = u then db.users u + a else db.users uid := rfl

theorem recordTransaction_inv {uid : Nat} {s : Int} {db : DB}
    (h1 : balancesOk s (ledgerFor uid db) = true)
    (h2 : db.users uid = finalBalance s (ledgerFor uid db))
    (u : Nat) (ty : String) (a : Int) :
    balancesOk s (ledgerFor uid (recordTransaction db u ty a)) = true ∧
    (recordTransaction db u ty a).users uid =
      finalBalance s (ledgerFor uid (recordTransaction db u ty a)) := by
  by_cases hu : u = uid
  · subst hu
    rw [ledgerFor_record, if_pos rfl, users_record, if_pos rfl]
    constructor
    · rw [balancesOk_append, h1]
      simp [h2]
    · rw [finalBalance_append]
  · rw [ledgerFor_record, if_neg hu, users_record, if_neg (fun hc => hu hc.symm)]
    exact ⟨h1, h2⟩

theorem applyTxs_inv {uid : Nat} {s : Int} (reqs : List TxReq) (db : DB)
    (h1 : balancesOk s (ledgerFor uid db) = true)
    (h2 : db.users uid = finalBalance s (ledgerFor uid db)) :
    balancesOk s (ledgerFor uid (applyTxs db reqs)) = true ∧
    (applyTxs db reqs).users uid = finalBalance s (ledgerFor uid (applyTxs db reqs)) := by
  induction reqs generalizing db with
  | nil => exact ⟨h1, h2⟩
  | cons r rs ih =>
    have step := recordTransaction_inv h1 h2 r.uid r.ty r.amount
    exact ih _ step.1 step.2

/-- C1: over any run of ledger writes, a user's `balance_after` sequence, in
creation order, is the prefix sum of the amounts starting from the user's
stored reputation at the time of the first transaction, and the stored
reputation always equals the last transaction's `balance_after`. -/
theorem c1_ledger_prefix_sum (db : DB) (reqs : List TxReq) (uid : Nat)
    (h : ledgerFor uid db = []) :
    balancesOk (db.users uid) (ledgerFor uid (applyTxs db reqs)) = true ∧
    (applyTxs db reqs).users uid =
      finalBalance (db.users uid) (ledgerFor uid (applyTxs db reqs)) := by
  have h1 : balancesOk (db.users uid) (ledgerFor uid db) = true := by rw [h]; rfl
  have h2 : db.users uid = finalBalance (db.users uid) (ledgerFor uid db) := by rw [h]; rfl
  exact applyTxs_inv reqs db h1 h2

/-- A database with every reputation at 100 and an empty ledger. -/
def c1Db : DB :=
  { votes := [], ledger := [], notifs := [], questions := [], answers := [],
    users := fun _ => 100 }

/-- A concrete run of ledger writes: user 7 gains 15 then 5, user 3 pays 1. -/
def c1Reqs : List TxReq :=
  [ { uid := 7, ty := "answer_accepted", amount := 15 },
    { uid := 7, ty := "question_upvote", amount := 5 },
    { uid := 3, ty := "downvote_given", amount := -1 } ]

/-- C1 witness: the prefix-sum theorem applied to the concrete run. -/
theorem c1_ledger_prefix_sum_witness :
    ledgerFor 7 c1Db = [] ∧
    (balancesOk (c1Db.users 7) (ledgerFor 7 (applyTxs c1Db c1Reqs)) = true ∧
      (applyTxs c1Db c1Reqs).users 7 =
        finalBalance (c1Db.users 7) (ledgerFor 7 (applyTxs c1Db c1Reqs))) :=
  ⟨rfl, c1_ledger_prefix_sum c1Db c1Reqs 7 rfl⟩

/-! Lemmas about the answer-flag updates done by `accept_answer` (claim C6). -/

theorem saveAccepted_self (l : List Answer) (a : Answer) :
    ∀ r ∈ (l.map (fun r : Answer =>
        if r.questionId = a.questionId ∧ r.id ≠ a.id ∧ r.isAccepted = true then
          { r with isAccepted := false }
        else r)).map
      (fun r : Answer => if r.id = a.id then { r with isAccepted := true } else r),
      r.id = a.id → r.isAccepted = true := by
  intro r hr hid
  obtain ⟨r2, _, rfl⟩ := List.mem_map.mp hr
  by_cases h3 : r2.id = a.id
  · simp [h3]
  · rw [if_neg h3] at hid ⊢
    exact absurd hid h3

theorem clearPrev_then_save_cleared (l : List Answer) (a : Answer) (p : Nat)
    (hpa : p ≠ a.id) :
    ∀ r ∈ ((l.map (fun r : Answer => if r.id = p then { r with isAccepted := false } else r)).map
        (fun r : Answer =>
          if r.questionId = a.questionId ∧ r.id ≠ a.id ∧ r.isAccepted = true then
            { r with isAccepted := false }
          else r)).map
      (fun r : Answer => if r.id = a.id then { r with isAccepted := true } else r),
      r.id = p → r.isAccepted = false := by
  intro r hr hid
  obtain ⟨r2, hr2, rfl⟩ := List.mem_map.mp hr
  by_cases h3 : r2.id = a.id
  · rw [if_pos h3] at hid
    exact absurd (hid ▸ h3 : p = a.id) hpa
  · rw [if_neg h3] at hid ⊢
    obtain ⟨r1, hr1, rfl⟩ := List.mem_map.mp hr2
    by_cases h2c : r1.questionId = a.questionId ∧ r1.id ≠ a.id ∧ r1.isAccepted = true
    · rw [if_pos h2c]
    · rw [if_neg h2c] at hid ⊢
      obtain ⟨r0, _, rfl⟩ := List.mem_map.mp hr1
      by_cases h1c : r0.id = p
      · rw [if_pos h1c]
      · rw [if_neg h1c] at hid
        exact absurd hid h1c

/-- C6: accepting an answer by an authorized user (the question author or a
moderator) succeeds, points the question at the answer, marks it answered,
clears the previously accepted answer's flag, sets the new answer's flag,
and appends exactly one `answer_accepted` ledger row of +15 for the answer
author, whose `balance_after` is the author's reputation plus 15. -/
theorem c6_accept_answer (db : DB) (q : Question) (a : Answer) (u : UserRec)
    (prevAttr : Option (Option Nat))
    (_h1 : a.questionId = q.id)
    (h2 : q.authorId = u.id ∨ u.isModerator = true) :
    accept_answer db q a u prevAttr = Except.ok (accept_answer_core db q a prevAttr) ∧
    (accept_answer_core db q a prevAttr).2.1.acceptedAnswer = some a.id ∧
    (accept_answer_core db q a prevAttr).2.1.isAnswered = true ∧
    (accept_answer_core db q a prevAttr).1.ledger =
      db.ledger ++ [{ userId := a.authorId, txType := "answer_accepted", amount := 15,
                      balanceAfter := db.users a.authorId + 15 }] ∧
    (∀ p, q.acceptedAnswer = some p → p ≠ a.id →
      ∀ r ∈ (accept_answer_core db q a prevAttr).1.answers, r.id = p → r.isAccepted = false) ∧
    (∀ r ∈ (accept_answer_core db q a prevAttr).1.answers, r.id = a.id → r.isAccepted = true) := by
  have hcond : ¬ (q.authorId ≠ u.id ∧ u.isModerator = false) := by
    rcases h2 with h | h
    · exact fun hc => hc.1 h
    · intro hc
      rw [h] at hc
      simp at hc
  refine ⟨?_, rfl, rfl, rfl, ?_, ?_⟩
  · simp [accept_answer, validate_answer_acceptance, hcond]
  · intro p hp hpa
    have hans : (accept_answer_core db q a prevAttr).1.answers =
        ((db.answers.map (fun r : Answer => if r.id = p then { r with isAccepted := false } else r)).map
          (fun r : Answer =>
            if r.questionId = a.questionId ∧ r.id ≠ a.id ∧ r.isAccepted = true then
              { r with isAccepted := false }
            else r)).map
          (fun r : Answer => if r.id = a.id then { r with isAccepted := true } else r) := by
      simp [accept_answer_core, questionPostSave, recordTransaction, hp]
    rw [hans]
    exact clearPrev_then_save_cleared db.answers a p hpa
  · intro r hr hid
    have hans2 : (accept_answer_core db q a prevAttr).1.answers =
        ((match q.acceptedAnswer with
          | some p => db.answers.map
              (fun r : Answer => if r.id = p then { r with isAccepted := false } else r)
          | none => db.answers).map
          (fun r : Answer =>
            if r.questionId = a.questionId ∧ r.id ≠ a.id ∧ r.isAccepted = true then
              { r with isAccepted := false }
            else r)).map
          (fun r : Answer => if r.id = a.id then { r with isAccepted := true } else r) := rfl
    rw [hans2] at hr
    exact saveAccepted_self _ a r hr hid

/-- A concrete acceptance scenario: question 1 by user 10, which currently
accepts answer 2 (by user 30); answer 3 by user 20 is newly accepted. -/
def c6Db : DB :=
  { votes := [], ledger := [], notifs := [],
    questions := [{ id := 1, authorId := 10, acceptedAnswer := some 2, isAnswered := true }],
    answers := [{ id := 2, questionId := 1, authorId := 30, isAccepted := true },
                { id := 3, questionId := 1, authorId := 20, isAccepted := false }],
    users := fun _ => 50 }

/-- The question row of the concrete acceptance scenario. -/
def c6Q : Question := { id := 1, authorId := 10, acceptedAnswer := some 2, isAnswered := true }

/-- The answer row being accepted in the concrete scenario. -/
def c6A : Answer := { id := 3, questionId := 1, authorId := 20, isAccepted := false }

/-- C6 witness: the acceptance theorem applied to the concrete scenario,
with the question author (user 10, not a moderator) accepting. -/
theorem c6_accept_answer_witness :
    c6A.questionId = c6Q.id ∧ (c6Q.authorId = 10 ∨ (false : Bool) = true) ∧
    (accept_answer c6Db c6Q c6A { id := 10, isModerator := false } none =
      Except.ok (accept_answer_core c6Db c6Q c6A none) ∧
    (accept_answer_core c6Db c6Q c6A none).2.1.acceptedAnswer = some 3 ∧
    (accept_answer_core c6Db c6Q c6A none).2.1.isAnswered = true ∧
    (accept_answer_core c6Db c6Q c6A none).1.ledger =
      c6Db.ledger ++ [{ userId := 20, txType := "answer_accepted", amount := 15,
                        balanceAfter := 65 }]) :=
  ⟨rfl, Or.inl rfl,
    (c6_accept_answer c6Db c6Q c6A { id := 10, isModerator := false } none rfl (Or.inl rfl)).1,
    (c6_accept_answer c6Db c6Q c6A { id := 10, isModerator := false } none rfl (Or.inl rfl)).2.1,
    (c6_accept_answer c6Db c6Q c6A { id := 10, isModerator := false } none rfl (Or.inl rfl)).2.2.1,
    (c6_accept_answer c6Db c6Q c6A { id := 10, isModerator := false } none rfl (Or.inl rfl)).2.2.2.1⟩

/-- C7: evaluating the acceptance flow on a freshly loaded question
instance. The `_previous_accepted_answer` attribute is absent (`none`)
because `track_accepted_answer_changes` only sets it after a save - and then
to the already-saved value - so `question_answer_accepted` sees no tracked
previous value and creates no notification, even though the accepted-answer
reference did transition to the answer. -/
theorem c7_accept_creates_no_notification (db : DB) (q : Question) (a : Answer) :
    (accept_answer_core db q a none).2.1.acceptedAnswer = some a.id ∧
    (accept_answer_core db q a none).1.notifs = db.notifs := by
  refine ⟨rfl, ?_⟩
  simp [accept_answer_core, questionPostSave, recordTransaction, acceptSignalNotifs]

/-- C5: the channel message produced when a reputation transaction commits
goes to the class-name group `reputationtransaction_updates` with type
`realtime_update`; a connection of user 7 - subscribed to its personal
topic `notifications_7` (and `global_updates`) - is not in that group, and
no consumer handler is named `realtime_update`, so nothing is delivered. -/
theorem c5_reputation_update_not_delivered :
    reputationChangedMsg =
      { group := "reputationtransaction_updates", mtype := "realtime_update" } ∧
    (notificationConsumerConnect 7).groups = ["notifications_7", "global_updates"] ∧
    deliverToConn (notificationConsumerConnect 7) reputationChangedMsg = none := by
  refine ⟨by decide, rfl, by decide⟩

theorem unreadFor_markRead (r : Nat) (n : Notif) : unreadFor r (markRead r n) = false := by
  unfold markRead unreadFor
  by_cases h1 : n.recipientId = r <;> by_cases h2 : n.isRead <;> simp [h1, h2]

theorem markRead_id_of_read (r : Nat) (n : Notif) (h : unreadFor r n = false) :
    markRead r n = n := by
  unfold markRead
  simp [h]

theorem markRead_map_id (r : Nat) (l : List Notif)
    (h : ∀ n ∈ l, unreadFor r n = false) : l.map (markRead r) = l := by
  induction l with
  | nil => rfl
  | cons n ns ih =>
    have hn := markRead_id_of_read r n (h n (by simp))
    have hns := ih (fun x hx => h x (List.mem_cons_of_mem _ hx))
    simp [hn, hns]

/-- C8: `mark_all_read` returns the number of the recipient's notifications
unread at call time, leaves the recipient's unread count at 0, and is a
no-op returning 0 when nothing is unread. -/
theorem c8_mark_all_read (db : DB) (r : Nat) :
    (markAllRead db r).2 = unreadCount db r ∧
    unreadCount (markAllRead db r).1 r = 0 ∧
    (unreadCount db r = 0 → (markAllRead db r).1 = db) := by
  refine ⟨rfl, ?_, ?_⟩
  · show ((db.notifs.map (markRead r)).filter (unreadFor r)).length = 0
    have hnil : (db.notifs.map (markRead r)).filter (unreadFor r) = [] := by
      rw [List.filter_eq_nil_iff]
      intro x hx
      obtain ⟨n, _, rfl⟩ := List.mem_map.mp hx
      simp [unreadFor_markRead]
    rw [hnil]
    rfl
  · intro h0
    have hnil : db.notifs.filter (unreadFor r) = [] := List.length_eq_zero.mp h0
    have hall : ∀ n ∈ db.notifs, unreadFor r n = false := by
      intro n hn
      have := List.filter_eq_nil_iff.mp hnil n hn
      simpa using this
    show ({ db with notifs := db.notifs.map (markRead r) } : DB) = db
    rw [markRead_map_id r db.notifs hall]

/-- A notification table: user 1 has two unread and one read notification;
user 2 has one unread. -/
def c8Db : DB :=
  { votes := [], ledger := [], questions := [], answers := [], users := fun _ => 0,
    notifs := [ { recipientId := 1, senderId := some 2, ntype := "new_answer", isRead := false },
                { recipientId := 1, senderId := none, ntype := "answer_accepted", isRead := true },
                { recipientId := 1, senderId := some 3, ntype := "question_upvoted", isRead := false },
                { recipientId := 2, senderId := some 1, ntype := "new_answer", isRead := false } ] }

/-- C8 witness: the theorem applied to the concrete table for recipient 1
(two unread) and, for the no-op clause, recipient 3 (zero unread). -/
theorem c8_mark_all_read_witness :
    (markAllRead c8Db 1).2 = unreadCount c8Db 1 ∧
    unreadCount (markAllRead c8Db 1).1 1 = 0 ∧
    unreadCount c8Db 3 = 0 ∧
    (markAllRead c8Db 3).1 = c8Db :=
  ⟨(c8_mark_all_read c8Db 1).1, (c8_mark_all_read c8Db 1).2.1, rfl,
    (c8_mark_all_read c8Db 3).2.2 rfl⟩

/-- C9 counterexample: the notifications-app consumer sends its
`unread_count` connection message with only `type` and `count` fields - no
`timestamp` - so not every outbound message carries a timestamp. -/
theorem c9_timestamp_counterexample :
    ({ consumer := "notifications.NotificationConsumer", mtype := "unread_count",
       fields := ["type", "count"] } : OutMsg) ∈ allOutboundMessages ∧
    msgHasTimestamp
      { consumer := "notifications.NotificationConsumer", mtype := "unread_count",
        fields := ["type", "count"] } = false := by
  refine ⟨by decide, rfl⟩

/-- C9 amended: every outbound consumer message carries a `timestamp` field
except exactly three - the admin `system_status` message and the
notifications-app `unread_count` and `notification` messages. -/
theorem c9_timestamp_amended :
    allOutboundMessages.all (fun m =>
      msgHasTimestamp m == !(["system_status", "unread_count", "notification"].contains m.mtype)) =
      true := by
  decide

end OwlPath
